import Mathlib

/-!
Verification development for the `my-daily-calendar` repository.

The repository is a set of single-page calendar/task applications backed by a
hosted auth + document-database service.  This file shallowly embeds the
application logic that the specification talks about:

* the environment-probing config resolvers (`getFirebaseConfig` in the
  diagnostic variant of `App.jsx`, and the two-source variant in `part_004`);
* the task state of the main `App.jsx` component: the snapshot handler,
  the derived views `calendarDays`, `displayTasks` and `progress`, and the
  mutation handlers `handleSaveTask`, `toggleTask`, `deleteTask`;
* the auth-initialisation effect (`onAuthStateChanged` handler).

JavaScript runtime behaviour is embedded explicitly: JS truthiness of an
environment string (absent or empty counts as falsy), `JSON.parse` as an
abstract partial parse function (exceptions become the `catch` branch),
`Date` month/weekday arithmetic via the Gregorian rules, `Math.round` as
floor (x + 1/2) on rationals, `String.prototype.includes` as substring
search, and `toLowerCase` as character-wise lowering.
-/

namespace CalendarApp

/-- Result of a config resolver: a parsed config, the object returned by the
`catch` branch (`\x7b error: "..." \x7d` in the source, distinct from `null`),
or `null` when no source is present. -/
inductive ConfigResult (J : Type) where
  | config (j : J) : ConfigResult J
  | parseError : ConfigResult J
  | noConfig : ConfigResult J
deriving DecidableEq

/-- The three candidate sources probed by the diagnostic `App.jsx` variant, in
its priority order: `import.meta.env.VITE_FIREBASE_CONFIG`, the runtime global
`__firebase_config`, then `process.env.VITE_FIREBASE_CONFIG`.  `none` models an
undefined source. -/
structure Env3 where
  vite : Option String
  fbGlobal : Option String
  procEnv : Option String
deriving DecidableEq

/-- The two candidate sources probed by the `part_004` variant, in its priority
order: `process.env.VITE_FIREBASE_CONFIG`, then `__firebase_config`. -/
structure Env2 where
  procEnv : Option String
  fbGlobal : Option String
deriving DecidableEq

/-- JS truthiness of an optional environment string: defined and non-empty.
The source guards each probe with `typeof x !== 'undefined' && x` (or
optional chaining) followed by an `if (x)` truthiness test. -/
def presentStr : Option String → Option String
  | some s => if s = "" then none else some s
  | none => none

/-- Function `getFirebaseConfig` of the diagnostic `App.jsx` variant.  The whole probe
sequence sits in one `try`: the first truthy source is parsed with
`JSON.parse`; a parse exception lands in `catch`, which returns the error
object; if no source is truthy the function returns `null`.  `parse` embeds
`JSON.parse` (`none` = the parse throws). -/
def getFirebaseConfig {J : Type} (parse : String → Option J) (e : Env3) :
    ConfigResult J :=
  match presentStr e.vite with
  | some s =>
    match parse s with
    | some j => ConfigResult.config j
    | none => ConfigResult.parseError
  | none =>
    match presentStr e.fbGlobal with
    | some s =>
      match parse s with
      | some j => ConfigResult.config j
      | none => ConfigResult.parseError
    | none =>
      match presentStr e.procEnv with
      | some s =>
        match parse s with
        | some j => ConfigResult.config j
        | none => ConfigResult.parseError
      | none => ConfigResult.noConfig

/-- Function `getFirebaseConfig` of the `part_004` variant.  Its `catch` only logs
(`console.error`) and execution falls to the trailing `return null`, so a parse
failure yields `null` plus a log line.  Returns the result together with the
emitted log. -/
def getFirebaseConfigP4 {J : Type} (parse : String → Option J) (e : Env2) :
    ConfigResult J × List String :=
  match presentStr e.procEnv with
  | some s =>
    match parse s with
    | some j => (ConfigResult.config j, [])
    | none => (ConfigResult.noConfig, ["Firebase config load failed"])
  | none =>
    match presentStr e.fbGlobal with
    | some s =>
      match parse s with
      | some j => (ConfigResult.config j, [])
      | none => (ConfigResult.noConfig, ["Firebase config load failed"])
    | none => (ConfigResult.noConfig, [])

/-- The first truthy source of the `App.jsx` variant's priority order. -/
def firstPresent3 (e : Env3) : Option String :=
  match presentStr e.vite with
  | some s => some s
  | none =>
    match presentStr e.fbGlobal with
    | some s => some s
    | none => presentStr e.procEnv

/-- The first truthy source of the `part_004` variant's priority order. -/
def firstPresent2 (e : Env2) : Option String :=
  match presentStr e.procEnv with
  | some s => some s
  | none => presentStr e.fbGlobal

/-- A concrete stand-in for `JSON.parse` used by the closed counterexamples:
only the string `"\x7b\x7d"` is well-formed, and it parses to `()`. -/
def parse0 : String → Option Unit :=
  fun s => if s = "{}" then some () else none

/-- Environment where the highest-priority source is present but malformed
while the second source holds well-formed JSON. -/
def envMalformedFirst : Env3 :=
  { vite := some "oops", fbGlobal := some "{}", procEnv := none }

/-! ### Data model of the main `App.jsx` component -/

/-- A task record as decoded from a snapshot document
(`\x7b id: d.id, ...d.data() \x7d`).  Field shapes follow the records the app
itself writes: `date` is a `YYYY-MM-DD` string, `createdAt` an ISO string. -/
structure Task where
  id : String
  date : String
  text : String
  completed : Bool
  priority : String
  createdAt : String
deriving DecidableEq

/-- The field set stored in a snapshot document (`d.data()`), without the id. -/
structure TaskData where
  date : String
  text : String
  completed : Bool
  priority : String
  createdAt : String
deriving DecidableEq

/-- One document of a delivered collection snapshot. -/
structure SnapDoc where
  id : String
  data : TaskData
deriving DecidableEq

/-- Decoding `snapshot.docs.map(d => (\x7b id: d.id, ...d.data() \x7d))` on one doc. -/
def decodeDoc (d : SnapDoc) : Task :=
  { id := d.id, date := d.data.date, text := d.data.text,
    completed := d.data.completed, priority := d.data.priority,
    createdAt := d.data.createdAt }

/-- A JS `Date` value as the component uses it: `getFullYear()`,
`getMonth()` (0-indexed month) and `getDate()` (1-indexed day). -/
structure JSDate where
  year : Nat
  month : Nat
  day : Nat
deriving DecidableEq

/-- Embedding of `String(n).padStart(2, '0')` for the month/day numbers in play. -/
def pad2 (n : Nat) : String :=
  if n < 10 then "0" ++ toString n else toString n

/-- The template string `` `$\x7byear\x7d-$\x7bMM\x7d-$\x7bDD\x7d` `` built by
`formatDate` and `calendarDays` (`month0` is the 0-indexed JS month). -/
def mkDateStr (year month0 day : Nat) : String :=
  toString year ++ "-" ++ pad2 (month0 + 1) ++ "-" ++ pad2 day

/-- Function `formatDate` of `App.jsx`: the `YYYY-MM-DD` rendering of a date. -/
def formatDate (d : JSDate) : String :=
  mkDateStr d.year d.month d.day

/-- Embedding of `String.prototype.trim()`: dropping whitespace characters from
both ends. -/
def strTrim (s : String) : String :=
  String.mk
    (((s.data.dropWhile Char.isWhitespace).reverse.dropWhile
        Char.isWhitespace).reverse)

/-- Substring test on character lists, embedding
`String.prototype.includes`. -/
def listContains (hay pat : List Char) : Bool :=
  match hay with
  | [] => pat.isEmpty
  | _ :: t => pat.isPrefixOf hay || listContains t pat

/-- Embedding of `toLowerCase()` as character-wise lowering. -/
def strLower (s : String) : String :=
  String.mk (s.data.map Char.toLower)

/-- Test `a.toLowerCase().includes(b.toLowerCase())`: case-insensitive substring
containment. -/
def strContainsCI (text term : String) : Bool :=
  listContains (strLower text).toList (strLower term).toList

/-- Function `displayTasks` of `App.jsx`: with a blank (trimmed-empty) search term, the
tasks of the selected date; otherwise the case-insensitive text matches of the
search term.  (`t.text || ''` is the identity on our string-valued `text`
field, including the empty string.) -/
def displayTasks (tasks : List Task) (selectedDate : JSDate)
    (searchTerm : String) : List Task :=
  if strTrim searchTerm = "" then
    tasks.filter (fun t => t.date == formatDate selectedDate)
  else
    tasks.filter (fun t => strContainsCI t.text searchTerm)

/-- Spec selector shape (a): exact-match filter on the date key. -/
def selectByDate (records : List Task) (dateKey : String) : List Task :=
  records.filter (fun t => t.date == dateKey)

/-- Spec selector shape (b): case-insensitive substring filter on the text
field. -/
def selectByText (records : List Task) (term : String) : List Task :=
  records.filter (fun t => strContainsCI t.text term)

/-- Embedding of `Math.round` on the non-negative rationals produced by `progress`:
round-half-up, i.e. `⌊x + 1/2⌋`. -/
def jsRound (x : ℚ) : ℤ :=
  Int.floor (x + 1 / 2)

/-- Function `progress` of `App.jsx`: `0` when the selected date has no tasks, else
`Math.round((completedCount / totalCount) * 100)`. -/
def progress (tasks : List Task) (selectedDate : JSDate) : ℤ :=
  let selectedDateStr := formatDate selectedDate
  let todaysTasks := tasks.filter (fun t => t.date == selectedDateStr)
  if todaysTasks.length = 0 then 0
  else
    jsRound ((((todaysTasks.filter (fun t => t.completed)).length : ℚ) /
      (todaysTasks.length : ℚ)) * 100)

/-! ### Calendar grid -/

/-- Gregorian leap-year rule, as implemented by the JS `Date` month/day
arithmetic used in `new Date(year, month + 1, 0).getDate()`. -/
def isLeapYear (y : Nat) : Bool :=
  y % 4 = 0 && (y % 100 != 0 || y % 400 = 0)

/-- Value of `new Date(year, month + 1, 0).getDate()`: the number of days of the
0-indexed month `m0` of year `y`. -/
def daysInMonth (y m0 : Nat) : Nat :=
  match m0 with
  | 0 => 31
  | 1 => if isLeapYear y then 29 else 28
  | 2 => 31
  | 3 => 30
  | 4 => 31
  | 5 => 30
  | 6 => 31
  | 7 => 31
  | 8 => 30
  | 9 => 31
  | 10 => 30
  | _ => 31

/-- Value of `new Date(y, m0, q).getDay()` (0 = Sunday) for Gregorian dates, via
Zeller's congruence. -/
def jsGetDay (y m0 q : Nat) : Nat :=
  let m := m0 + 1
  let m' := if m < 3 then m + 12 else m
  let y' := if m < 3 then y - 1 else y
  let K := y' % 100
  let J := y' / 100
  let h := (q + 13 * (m' + 1) / 5 + K + K / 4 + J / 4 + 5 * J) % 7
  (h + 6) % 7

/-- One cell of the calendar grid: either a leading placeholder
(`\x7b day: null, currentMonth: false \x7d`) or a day cell
(`\x7b day, dateStr, currentMonth: true, tasks \x7d`). -/
inductive CalendarCell where
  | placeholder : CalendarCell
  | dayCell (day : Nat) (dateStr : String) (tasks : List Task) : CalendarCell
deriving DecidableEq

/-- Function `calendarDays` of `App.jsx`: `firstDay` placeholders for the weekday
offset of day 1, then one day cell per day `1..totalDays`, each holding the
tasks whose `date` equals the cell's date string. -/
def calendarDays (currentDate : JSDate) (tasks : List Task) :
    List CalendarCell :=
  let year := currentDate.year
  let month := currentDate.month
  let firstDay := jsGetDay year month 1
  let totalDays := daysInMonth year month
  List.replicate firstDay CalendarCell.placeholder ++
    (List.range totalDays).map (fun i =>
      let dateStr := mkDateStr year month (i + 1)
      CalendarCell.dayCell (i + 1) dateStr
        (tasks.filter (fun t => t.date == dateStr)))

/-! ### Component state, snapshot handler, mutations, auth -/

/-- The `App.jsx` component state touched by the embedded handlers. -/
structure AppState where
  user : Option String
  loading : Bool
  tasks : List Task
  isModalOpen : Bool
  newTask : String
  newPriority : String
  editingId : Option String
  searchTerm : String
  selectedDate : JSDate
deriving DecidableEq

/-- The `onSnapshot` success handler:
`setTasks(snapshot.docs.map(d => (\x7b id: d.id, ...d.data() \x7d)))` —
the cached task set is replaced by the decoded snapshot, nothing is merged. -/
def onSnapshotTasks (s : AppState) (snap : List SnapDoc) : AppState :=
  { s with tasks := snap.map decodeDoc }

/-- Path `doc(db, 'artifacts', appId, 'users', user.uid, 'tasks', taskId)`. -/
def taskDocPath (appId uid taskId : String) : List String :=
  ["artifacts", appId, "users", uid, "tasks", taskId]

/-- A request issued against the external service by a mutation handler. -/
inductive MutationReq where
  | setDocR (path : List String) (data : TaskData) : MutationReq
  | updateTextPriority (path : List String) (text priority : String) :
      MutationReq
  | updateCompleted (path : List String) (completed : Bool) : MutationReq
  | deleteDocR (path : List String) : MutationReq
deriving DecidableEq

/-- Outcome of one mutation handler run: the resulting component state, the
requests sent to the external service, and the console log lines. -/
structure MutResult where
  state : AppState
  reqs : List MutationReq
  logs : List String
deriving DecidableEq

/-- Function `handleSaveTask`: guarded by `!newTask.trim() || !user`; updates
`\x7b text, priority \x7d` when `editingId` is set, otherwise creates a fresh
task document (`newId` stands for `crypto.randomUUID()`, `nowIso` for
`new Date().toISOString()`); on success clears the input, editing id and
modal; on rejection logs and leaves the state as it was.  `outcome` embeds the
awaited promise (`Except.error` = rejection caught by `catch`). -/
def handleSaveTask (appId : String) (s : AppState) (newId nowIso : String)
    (outcome : Except String Unit) : MutResult :=
  if strTrim s.newTask = "" then ⟨s, [], []⟩
  else
    match s.user with
    | none => ⟨s, [], []⟩
    | some uid =>
      let req :=
        match s.editingId with
        | some eid =>
          MutationReq.updateTextPriority (taskDocPath appId uid eid)
            s.newTask s.newPriority
        | none =>
          MutationReq.setDocR (taskDocPath appId uid newId)
            { date := formatDate s.selectedDate, text := s.newTask,
              completed := false, priority := s.newPriority,
              createdAt := nowIso }
      match outcome with
      | Except.ok _ =>
        ⟨{ s with newTask := "", editingId := none, isModalOpen := false },
          [req], []⟩
      | Except.error e => ⟨s, [req], ["Save Error: " ++ e]⟩

/-- Function `toggleTask(id, status)`: guarded by `!user`; sends one
`updateDoc(..., \x7b completed: !status \x7d)`; never changes local state
itself (the subscription reflects the write); on rejection logs. -/
def toggleTask (appId : String) (s : AppState) (id : String) (status : Bool)
    (outcome : Except String Unit) : MutResult :=
  match s.user with
  | none => ⟨s, [], []⟩
  | some uid =>
    let req := MutationReq.updateCompleted (taskDocPath appId uid id) (!status)
    match outcome with
    | Except.ok _ => ⟨s, [req], []⟩
    | Except.error e => ⟨s, [req], [e]⟩

/-- Function `deleteTask(id)`: guarded by `!user`; sends one `deleteDoc`; on rejection
logs. -/
def deleteTask (appId : String) (s : AppState) (id : String)
    (outcome : Except String Unit) : MutResult :=
  match s.user with
  | none => ⟨s, [], []⟩
  | some uid =>
    let req := MutationReq.deleteDocR (taskDocPath appId uid id)
    match outcome with
    | Except.ok _ => ⟨s, [req], []⟩
    | Except.error e => ⟨s, [req], [e]⟩

/-- Events observed by the auth-initialisation effect: resolution or rejection
of the `signInAnonymously` promise, and an `onAuthStateChanged`
notification. -/
inductive AuthEvent where
  | signInResolved (uid : String) : AuthEvent
  | signInRejected (msg : String) : AuthEvent
  | authChanged (u : Option String) : AuthEvent
deriving DecidableEq

/-- The auth slice of the component state. -/
structure AuthState where
  user : Option String
  loading : Bool
  logs : List String
deriving DecidableEq

/-- One event step of the auth effect.  The `onAuthStateChanged` callback does
`setUser(currentUser); if (currentUser) setLoading(false)`.  The resolved
value of `signInAnonymously` is discarded (`await` without use); its rejection
is only logged (`console.error("Auth Error:", error)`). -/
def authStep (s : AuthState) (e : AuthEvent) : AuthState :=
  match e with
  | AuthEvent.signInResolved _ => s
  | AuthEvent.signInRejected m => { s with logs := s.logs ++ ["Auth Error: " ++ m] }
  | AuthEvent.authChanged u =>
    { s with user := u, loading := if u.isSome then false else s.loading }

/-- The payload of the last `onAuthStateChanged` notification in an event
list, if any. -/
def lastPublished : List AuthEvent → Option (Option String)
  | [] => none
  | e :: t =>
    match lastPublished t with
    | some u => some u
    | none =>
      match e with
      | AuthEvent.authChanged u => some u
      | _ => none

/-! ### Concrete values used by counterexamples and witnesses -/

/-- A task created earlier (smaller `createdAt`). -/
def ceTaskOld : Task :=
  { id := "t1", date := "2024-02-01", text := "older task", completed := false,
    priority := "low", createdAt := "2024-01-01T00:00:00.000Z" }

/-- A task created later (larger `createdAt`). -/
def ceTaskNew : Task :=
  { id := "t2", date := "2024-02-01", text := "newer task", completed := false,
    priority := "high", createdAt := "2024-03-01T00:00:00.000Z" }

/-- A completed task on 2024-02-01. -/
def demoDoneTask : Task :=
  { id := "d1", date := "2024-02-01", text := "done", completed := true,
    priority := "high", createdAt := "2024-01-02T00:00:00.000Z" }

/-- A component state with no signed-in user. -/
def demoStateNoUser : AppState :=
  { user := none, loading := false, tasks := [ceTaskOld], isModalOpen := true,
    newTask := "Buy milk", newPriority := "medium", editingId := none,
    searchTerm := "", selectedDate := ⟨2024, 1, 1⟩ }

/-- A component state with a signed-in user and a non-blank input. -/
def demoStateUser : AppState :=
  { user := some "u1", loading := false, tasks := [ceTaskOld],
    isModalOpen := true, newTask := "Buy milk", newPriority := "medium",
    editingId := none, searchTerm := "", selectedDate := ⟨2024, 1, 1⟩ }

/-! ## Theorems -/

/-- C1 counterexample.  In `envMalformedFirst` the Vite source is present but
malformed while the global source holds well-formed JSON (parsing to `()`), so
the first source holding well-formed JSON is the global one; yet the resolver
returns the parse-error object, not the parsed configuration of that source. -/
theorem getFirebaseConfig_not_first_wellformed :
    parse0 "oops" = none ∧ parse0 "{}" = some () ∧
    presentStr envMalformedFirst.vite = some "oops" ∧
    presentStr envMalformedFirst.fbGlobal = some "{}" ∧
    getFirebaseConfig parse0 envMalformedFirst = ConfigResult.parseError ∧
    getFirebaseConfig parse0 envMalformedFirst ≠ ConfigResult.config () := by
  refine ⟨rfl, rfl, rfl, rfl, rfl, ?_⟩
  decide

/-- Helper: the `App.jsx` resolver characterised by the first present source of
its priority order. -/
theorem getFirebaseConfig_chain {J : Type} (parse : String → Option J)
    (e : Env3) :
    getFirebaseConfig parse e =
      match firstPresent3 e with
      | some s =>
        match parse s with
        | some j => ConfigResult.config j
        | none => ConfigResult.parseError
      | none => ConfigResult.noConfig := by
  unfold getFirebaseConfig firstPresent3
  cases presentStr e.vite with
  | some s => rfl
  | none =>
    cases presentStr e.fbGlobal with
    | some s => rfl
    | none =>
      cases presentStr e.procEnv with
      | some s => rfl
      | none => rfl

/-- C1 (amended): the resolver returns the parsed configuration of the first
present (truthy) source in priority order when that source parses; the
parse-error object when the first present source is malformed; and `null` when
no source is present — lower-priority sources never override an earlier present
source. -/
theorem getFirebaseConfig_first_present {J : Type} (parse : String → Option J)
    (e : Env3) :
    getFirebaseConfig parse e =
      match firstPresent3 e with
      | some s =>
        match parse s with
        | some j => ConfigResult.config j
        | none => ConfigResult.parseError
      | none => ConfigResult.noConfig :=
  getFirebaseConfig_chain parse e

/-- The `part_004` resolver, characterised by the first present source of its
priority order: a well-formed first present source parses, a malformed one
logs and yields `null`, an absent environment yields `null` silently. -/
theorem getFirebaseConfigP4_first_present {J : Type} (parse : String → Option J)
    (e : Env2) :
    getFirebaseConfigP4 parse e =
      match firstPresent2 e with
      | some s =>
        match parse s with
        | some j => (ConfigResult.config j, [])
        | none => (ConfigResult.noConfig, ["Firebase config load failed"])
      | none => (ConfigResult.noConfig, []) := by
  unfold getFirebaseConfigP4 firstPresent2
  cases presentStr e.procEnv with
  | some s => rfl
  | none =>
    cases presentStr e.fbGlobal with
    | some s => rfl
    | none => rfl

/-- C2 counterexample.  In the `part_004` variant, a present-but-malformed
highest-priority source produces exactly the same return value (`null`) as a
fully absent environment: the parse failure is not distinguishable from
"source absent" in the result. -/
theorem getFirebaseConfigP4_parse_error_indistinct :
    parse0 "oops" = none ∧
    presentStr (some "oops") = some "oops" ∧
    (getFirebaseConfigP4 parse0 { procEnv := some "oops", fbGlobal := none }).1 =
      ConfigResult.noConfig ∧
    (getFirebaseConfigP4 parse0 { procEnv := some "oops", fbGlobal := none }).1 =
      (getFirebaseConfigP4 parse0 { procEnv := none, fbGlobal := none }).1 := by
  exact ⟨rfl, rfl, rfl, rfl⟩

/-- C2 (amended): when the first present source is malformed, the `App.jsx`
diagnostic resolver returns the distinct parse-error object (never the
`null`/absent value and never a lower-priority source's parse), while the
`part_004` resolver logs the failure but returns `null`, the same value as when
no source is present at all. -/
theorem resolver_parse_error_outcomes {J : Type} (parse : String → Option J)
    (e3 : Env3) (e2 : Env2) (s3 s2 : String)
    (h3 : firstPresent3 e3 = some s3) (hp3 : parse s3 = none)
    (h2 : firstPresent2 e2 = some s2) (hp2 : parse s2 = none) :
    getFirebaseConfig parse e3 = ConfigResult.parseError ∧
    (ConfigResult.parseError : ConfigResult J) ≠ ConfigResult.noConfig ∧
    (getFirebaseConfigP4 parse e2).1 = ConfigResult.noConfig ∧
    (getFirebaseConfigP4 parse e2).2 ≠ [] := by
  have hfst : getFirebaseConfig parse e3 = ConfigResult.parseError := by
    rw [getFirebaseConfig_chain, h3]
    simp [hp3]
  have hp4 : getFirebaseConfigP4 parse e2 =
      (ConfigResult.noConfig, ["Firebase config load failed"]) := by
    rw [getFirebaseConfigP4_first_present, h2]
    simp [hp2]
  refine ⟨hfst, by simp, ?_, ?_⟩
  · rw [hp4]
  · rw [hp4]
    simp

/-- Witness for the amended C2 theorem at a concrete malformed environment. -/
theorem resolver_parse_error_outcomes_witness :
    getFirebaseConfig parse0 { vite := some "oops", fbGlobal := none, procEnv := none } =
      ConfigResult.parseError ∧
    (getFirebaseConfigP4 parse0 { procEnv := some "oops", fbGlobal := none }).1 =
      ConfigResult.noConfig := by
  have h := resolver_parse_error_outcomes parse0
    { vite := some "oops", fbGlobal := none, procEnv := none }
    { procEnv := some "oops", fbGlobal := none } "oops" "oops" rfl rfl rfl rfl
  exact ⟨h.1, h.2.2.1⟩

/-- C3: `displayTasks` is exactly one of the two selector shapes — the
exact-date filter when the trimmed search term is empty, else the
case-insensitive text filter — and membership is characterised accordingly. -/
theorem displayTasks_selector_shapes (tasks : List Task) (sd : JSDate)
    (q : String) :
    displayTasks tasks sd q =
      (if strTrim q = "" then selectByDate tasks (formatDate sd)
       else selectByText tasks q) ∧
    ∀ t, t ∈ displayTasks tasks sd q ↔
      t ∈ tasks ∧
        (if strTrim q = "" then t.date = formatDate sd
         else strContainsCI t.text q = true) := by
  constructor
  · unfold displayTasks selectByDate selectByText
    rfl
  · intro t
    unfold displayTasks
    by_cases h : strTrim q = ""
    · simp [h, List.mem_filter]
    · simp [h, List.mem_filter]

/-- C4: after any sequence of delivered snapshots ending in `lastS`, the cached
task set is exactly the decoded records of `lastS` — independent of the prior
state and of all earlier snapshots — and therefore the Local Projection equals
the projection of the last delivered record set. -/
theorem tasks_replaced_wholesale (s : AppState) (prev : List (List SnapDoc))
    (lastS : List SnapDoc) (sd : JSDate) (q : String) :
    ((prev ++ [lastS]).foldl onSnapshotTasks s).tasks = lastS.map decodeDoc ∧
    displayTasks ((prev ++ [lastS]).foldl onSnapshotTasks s).tasks sd q =
      displayTasks (lastS.map decodeDoc) sd q := by
  have h : ((prev ++ [lastS]).foldl onSnapshotTasks s).tasks =
      lastS.map decodeDoc := by
    rw [List.foldl_append]
    rfl
  exact ⟨h, by rw [h]⟩

/-- C5 counterexample.  The displayed list is exactly the service-delivered
order: delivering the same two tasks of 2024-02-01 in either order yields that
same order back, so in the first run the list is in ascending — not
descending — `createdAt` order, and no deterministic key ordering is applied
at all. -/
theorem displayTasks_delivery_order :
    displayTasks [ceTaskOld, ceTaskNew] ⟨2024, 1, 1⟩ "" =
      [ceTaskOld, ceTaskNew] ∧
    displayTasks [ceTaskNew, ceTaskOld] ⟨2024, 1, 1⟩ "" =
      [ceTaskNew, ceTaskOld] ∧
    ceTaskOld.createdAt.data < ceTaskNew.createdAt.data ∧
    ([ceTaskOld, ceTaskNew] : List Task) ≠ [ceTaskNew, ceTaskOld] := by
  refine ⟨by decide, by decide, by decide, by decide⟩

/-- C5 (amended): the application applies no client-side reordering; the
displayed task list preserves the relative order in which the service
delivered the records (every derived list is an order-preserving sublist of
the delivered set). -/
theorem displayTasks_preserves_delivered_order (tasks : List Task)
    (sd : JSDate) (q : String) :
    List.Sublist (displayTasks tasks sd q) tasks := by
  unfold displayTasks
  by_cases h : strTrim q = ""
  · rw [if_pos h]
    exact List.filter_sublist _
  · rw [if_neg h]
    exact List.filter_sublist _

/-- C6: with no current user, each of the three mutation handlers returns
without issuing any request, logging nothing, and leaving the entire component
state (tasks as well as modal/input state) unchanged — whatever the other
arguments and the would-be request outcome are. -/
theorem mutations_require_user (appId : String) (s : AppState)
    (newId nowIso tid1 tid2 : String) (st : Bool)
    (o1 o2 o3 : Except String Unit) (h : s.user = none) :
    handleSaveTask appId s newId nowIso o1 = ⟨s, [], []⟩ ∧
    toggleTask appId s tid1 st o2 = ⟨s, [], []⟩ ∧
    deleteTask appId s tid2 o3 = ⟨s, [], []⟩ := by
  unfold handleSaveTask toggleTask deleteTask
  rw [h]
  refine ⟨?_, rfl, rfl⟩
  by_cases ht : strTrim s.newTask = ""
  · rw [if_pos ht]
  · rw [if_neg ht]

/-- Witness for C6 at a concrete signed-out state. -/
theorem mutations_require_user_witness :
    handleSaveTask "app" demoStateNoUser "id1" "2024-02-01T00:00:00.000Z"
        (Except.ok ()) = ⟨demoStateNoUser, [], []⟩ ∧
    deleteTask "app" demoStateNoUser "t1" (Except.ok ()) =
      ⟨demoStateNoUser, [], []⟩ := by
  have h := mutations_require_user "app" demoStateNoUser "id1"
    "2024-02-01T00:00:00.000Z" "t1" "t1" true
    (Except.ok ()) (Except.ok ()) (Except.ok ()) rfl
  exact ⟨h.1, h.2.2⟩

/-- C7: when the awaited request of a mutation rejects, the handler logs the
error, issues exactly the one request it already sent (no automatic retry, no
queued replay), leaves the component state exactly as it was, and returns
normally (the render continues from the unchanged state). -/
theorem mutation_rejection_abandoned (appId : String) (s : AppState)
    (newId nowIso tid1 tid2 uid : String) (st : Bool) (e1 e2 e3 : String)
    (h : s.user = some uid) (ht : ¬ strTrim s.newTask = "") :
    (handleSaveTask appId s newId nowIso (Except.error e1)).state = s ∧
    (handleSaveTask appId s newId nowIso (Except.error e1)).reqs.length = 1 ∧
    (handleSaveTask appId s newId nowIso (Except.error e1)).logs =
      ["Save Error: " ++ e1] ∧
    toggleTask appId s tid1 st (Except.error e2) =
      ⟨s, [MutationReq.updateCompleted (taskDocPath appId uid tid1) (!st)],
        [e2]⟩ ∧
    deleteTask appId s tid2 (Except.error e3) =
      ⟨s, [MutationReq.deleteDocR (taskDocPath appId uid tid2)], [e3]⟩ := by
  obtain ⟨r, hsave⟩ : ∃ r, handleSaveTask appId s newId nowIso
      (Except.error e1) = ⟨s, [r], ["Save Error: " ++ e1]⟩ := by
    unfold handleSaveTask
    rw [if_neg ht, h]
    cases hed : s.editingId with
    | none => exact ⟨_, rfl⟩
    | some eid => exact ⟨_, rfl⟩
  refine ⟨?_, ?_, ?_, ?_, ?_⟩
  · rw [hsave]
  · rw [hsave]
    rfl
  · rw [hsave]
  · unfold toggleTask
    rw [h]
  · unfold deleteTask
    rw [h]

/-- Witness for C7 at a concrete signed-in state with a rejected request. -/
theorem mutation_rejection_abandoned_witness :
    (handleSaveTask "app" demoStateUser "id9" "2024-02-01T00:00:00.000Z"
        (Except.error "denied")).state = demoStateUser ∧
    (toggleTask "app" demoStateUser "t3" false
        (Except.error "denied")).logs = ["denied"] := by
  have h := mutation_rejection_abandoned "app" demoStateUser "id9"
    "2024-02-01T00:00:00.000Z" "t3" "t4" "u1" false "denied" "denied" "denied"
    rfl (by decide)
  refine ⟨h.1, ?_⟩
  rw [h.2.2.2.1]

/-- C8: the current-user state is written only by the `onAuthStateChanged`
handler — the resolved sign-in promise writes nothing — so after any
interleaving of sign-in resolutions/rejections and identity-change
notifications, the exposed user equals the payload of the last identity-change
notification (or the initial user when none arrived). -/
theorem user_written_only_by_auth_handler (s0 : AuthState)
    (evs : List AuthEvent) :
    (evs.foldl authStep s0).user = (lastPublished evs).getD s0.user := by
  induction evs generalizing s0 with
  | nil => rfl
  | cons e t ih =>
    rw [List.foldl_cons, ih]
    have hlp : lastPublished (e :: t) =
        match lastPublished t with
        | some u => some u
        | none =>
          match e with
          | AuthEvent.authChanged u => some u
          | _ => none := rfl
    rw [hlp]
    cases lastPublished t with
    | some u => rfl
    | none => cases e with
      | signInResolved uid => rfl
      | signInRejected m => rfl
      | authChanged u => rfl

/-- C9: for any month view, the grid is exactly `firstDay` placeholders (the
weekday of the 1st) followed by one cell per day `1..daysInMonth` in order;
each day cell carries the zero-padded `YYYY-MM-DD` string of its day and
exactly the tasks whose `date` equals that string.  Month lengths (leap years
included) enter through `daysInMonth`. -/
theorem calendar_grid_structure (cd : JSDate) (tasks : List Task) :
    (calendarDays cd tasks).length =
      jsGetDay cd.year cd.month 1 + daysInMonth cd.year cd.month ∧
    (∀ i (h : i < (calendarDays cd tasks).length),
      i < jsGetDay cd.year cd.month 1 →
        (calendarDays cd tasks).get ⟨i, h⟩ = CalendarCell.placeholder) ∧
    (∀ i (h : i < (calendarDays cd tasks).length),
      jsGetDay cd.year cd.month 1 ≤ i →
        (calendarDays cd tasks).get ⟨i, h⟩ =
          CalendarCell.dayCell (i - jsGetDay cd.year cd.month 1 + 1)
            (mkDateStr cd.year cd.month (i - jsGetDay cd.year cd.month 1 + 1))
            (tasks.filter (fun t =>
              t.date ==
                mkDateStr cd.year cd.month
                  (i - jsGetDay cd.year cd.month 1 + 1)))) := by
  unfold calendarDays
  refine ⟨by simp, ?_, ?_⟩
  · intro i h hi
    rw [List.get_eq_getElem]
    rw [List.getElem_append_left (by simpa using hi)]
    simp
  · intro i h hfd
    rw [List.get_eq_getElem]
    rw [List.getElem_append_right (by simpa using hfd)]
    simp

/-- Witness for C9 on February 2024 (a leap month): 4 leading placeholders
(2024-02-01 is a Thursday), 29 day cells, and the first day cell carries the
zero-padded date string and the matching task. -/
theorem calendar_grid_structure_witness :
    (calendarDays ⟨2024, 1, 15⟩ [ceTaskOld]).length = 33 ∧
    (calendarDays ⟨2024, 1, 15⟩ [ceTaskOld]).get ⟨0, by decide⟩ =
      CalendarCell.placeholder ∧
    (calendarDays ⟨2024, 1, 15⟩ [ceTaskOld]).get ⟨4, by decide⟩ =
      CalendarCell.dayCell 1 "2024-02-01" [ceTaskOld] := by
  have h := calendar_grid_structure ⟨2024, 1, 15⟩ [ceTaskOld]
  refine ⟨?_, ?_, ?_⟩
  · rw [h.1]
    decide
  · rw [h.2.1 0 (by decide) (by decide)]
  · rw [h.2.2 4 (by decide) (by decide)]
    decide

/-- C10: the progress value is an integer in `[0, 100]`; it is `0` exactly by
the zero-task guard when the selected date has no tasks, and otherwise equals
`Math.round(100 * completed / total)` over the tasks of that date. -/
theorem progress_in_range (tasks : List Task) (sd : JSDate) :
    0 ≤ progress tasks sd ∧ progress tasks sd ≤ 100 ∧
    ((tasks.filter (fun t => t.date == formatDate sd)).length = 0 →
      progress tasks sd = 0) ∧
    ((tasks.filter (fun t => t.date == formatDate sd)).length ≠ 0 →
      progress tasks sd =
        jsRound ((((tasks.filter (fun t => t.date == formatDate sd)).filter
            (fun t => t.completed)).length : ℚ) /
          ((tasks.filter (fun t => t.date == formatDate sd)).length : ℚ) *
            100)) := by
  have hct : ((tasks.filter (fun t => t.date == formatDate sd)).filter
      (fun t => t.completed)).length ≤
      (tasks.filter (fun t => t.date == formatDate sd)).length :=
    List.length_filter_le _ _
  unfold progress
  by_cases h0 : (tasks.filter (fun t => t.date == formatDate sd)).length = 0
  · rw [if_pos h0]
    refine ⟨le_refl 0, by norm_num, fun _ => rfl, fun hne => absurd h0 hne⟩
  · rw [if_neg h0]
    have htpos : (0 : ℚ) <
        ((tasks.filter (fun t => t.date == formatDate sd)).length : ℚ) := by
      exact_mod_cast Nat.pos_of_ne_zero h0
    have hq0 : (0 : ℚ) ≤
        (((tasks.filter (fun t => t.date == formatDate sd)).filter
          (fun t => t.completed)).length : ℚ) /
          ((tasks.filter (fun t => t.date == formatDate sd)).length : ℚ) := by
      positivity
    have hq1 : (((tasks.filter (fun t => t.date == formatDate sd)).filter
        (fun t => t.completed)).length : ℚ) /
        ((tasks.filter (fun t => t.date == formatDate sd)).length : ℚ) ≤ 1 :=
      (div_le_one htpos).mpr (by exact_mod_cast hct)
    refine ⟨?_, ?_, fun hz => absurd hz h0, fun _ => rfl⟩
    · unfold jsRound
      refine Int.le_floor.mpr ?_
      push_cast
      nlinarith
    · have hlt : (((tasks.filter (fun t => t.date == formatDate sd)).filter
          (fun t => t.completed)).length : ℚ) /
          ((tasks.filter (fun t => t.date == formatDate sd)).length : ℚ) * 100
            + 1 / 2 < ((101 : ℤ) : ℚ) := by push_cast; nlinarith
      have hfl := Int.floor_lt.mpr hlt
      unfold jsRound
      omega

/-- Witness for C10 at a concrete one-task day (the bounds instantiated). -/
theorem progress_in_range_witness :
    0 ≤ progress [demoDoneTask] ⟨2024, 1, 1⟩ ∧
    progress [demoDoneTask] ⟨2024, 1, 1⟩ ≤ 100 ∧
    progress [] ⟨2024, 1, 1⟩ = 0 := by
  have h := progress_in_range [demoDoneTask] ⟨2024, 1, 1⟩
  have h0 := progress_in_range [] ⟨2024, 1, 1⟩
  exact ⟨h.1, h.2.1, h0.2.2.1 (by decide)⟩

end CalendarApp
